import Mathlib

/-!
Verification of the review-service layer of the claon-admin-server
repository against its natural-language specification.

The embedding models `claon_admin/service/review.py` (the `ReviewService`
operations) and the request-validation layer of `claon_admin/model/center.py`
as pure functions over an explicit database state.  Each service operation
takes the database state and returns the outcome (`Except` of a service
exception) together with the state after the call, so that statements such
as "no repository write happens before the raise" are genuine theorems
about where the raise sits in the control flow.

Parts of the repository that the service layer calls but whose source is
not available (the repository classes and entity schema in
`claon_admin/schema/center.py`, the exception classes in
`claon_admin/common/error/exception.py`, and the response DTOs in
`claon_admin/model/review.py`) are modelled from the specification; each
such definition carries a doc comment starting with "Modelled from the
spec:".
-/

set_option autoImplicit false
set_option linter.unusedVariables false

namespace ClaonAdmin

/-! ## Error model -/

/-- Modelled from the spec: the error codes of
`claon_admin/common/error/exception.py` (not in src).  The four members are
exactly the codes used by `claon_admin/service/review.py`. -/
inductive ErrorCode
  | DATA_DOES_NOT_EXIST
  | NOT_ACCESSIBLE
  | WRONG_DATE_RANGE
  | ROW_ALREADY_EXIST
deriving DecidableEq

/-- Modelled from the spec: section 7 names three flat error kinds —
not-found, unauthorized, bad-request — matching the three exception classes
`NotFoundException`, `UnauthorizedException`, `BadRequestException`
imported by `claon_admin/service/review.py`. -/
inductive ExceptionKind
  | notFound
  | unauthorized
  | badRequest
deriving DecidableEq

/-- Modelled from the spec: a raised service exception, carrying its class
(kind), its `ErrorCode`, and its message string. -/
structure ServiceException where
  kind : ExceptionKind
  code : ErrorCode
  message : String
deriving DecidableEq

/-- Modelled from the spec: the `NotFoundException(code, message)` class. -/
def NotFoundException (code : ErrorCode) (message : String) : ServiceException :=
  ⟨ExceptionKind.notFound, code, message⟩

/-- Modelled from the spec: the `UnauthorizedException(code, message)` class. -/
def UnauthorizedException (code : ErrorCode) (message : String) : ServiceException :=
  ⟨ExceptionKind.unauthorized, code, message⟩

/-- Modelled from the spec: the `BadRequestException(code, message)` class. -/
def BadRequestException (code : ErrorCode) (message : String) : ServiceException :=
  ⟨ExceptionKind.badRequest, code, message⟩

/-! ## Entities (schema) -/

/-- Tag row attached to a review; the service reads its `word` field
(`claon_admin/service/review.py`, line 207). -/
structure ReviewTag where
  word : String
deriving DecidableEq

/-- Modelled from the spec: the `Center` entity of
`claon_admin/schema/center.py` (not in src), restricted to the fields the
review service reads — its id and its owner (`user_id`) reference. -/
structure Center where
  id : String
  ownerId : String
deriving DecidableEq

/-- Modelled from the spec: `Center.is_owner` from
`claon_admin/schema/center.py` (not in src).  Section 4 of the spec gives
the check as `center.owner_id == requester.id`. -/
def Center.is_owner (c : Center) (userId : String) : Bool :=
  c.ownerId == userId

/-- Modelled from the spec: the `Review` entity of
`claon_admin/schema/center.py` (not in src), restricted to the fields the
review service reads: id, center reference, optional answer reference
(`answer_id`), and tag list. -/
structure Review where
  id : String
  centerId : String
  answerId : Option String
  tag : List ReviewTag
deriving DecidableEq

/-- The `ReviewAnswer` entity as constructed by `create_review_answer`
(`claon_admin/service/review.py`, lines 100-103): a content string and the
review it answers (modelled by the review's id). -/
structure ReviewAnswer where
  content : String
  reviewId : String
deriving DecidableEq

/-- The database state visible to the review service: the stored centers,
reviews and review answers. -/
structure DBState where
  centers : List Center
  reviews : List Review
  answers : List ReviewAnswer
deriving DecidableEq

/-! ## Repositories -/

/-- Modelled from the spec: `CenterRepository.find_by_id` from
`claon_admin/schema/center.py` (not in src) — look up a center row by
primary key. -/
def CenterRepository.find_by_id (s : DBState) (centerId : String) : Option Center :=
  s.centers.find? (fun c => c.id == centerId)

/-- Modelled from the spec: `ReviewRepository.find_by_id_and_center_id`
from `claon_admin/schema/center.py` (not in src) — look up the review with
the given id belonging to the given center. -/
def ReviewRepository.find_by_id_and_center_id (s : DBState) (reviewId centerId : String) :
    Option Review :=
  s.reviews.find? (fun r => r.id == reviewId && r.centerId == centerId)

/-- Modelled from the spec: `ReviewRepository.find_all_by_center` from
`claon_admin/schema/center.py` (not in src) — all reviews of a center. -/
def ReviewRepository.find_all_by_center (s : DBState) (centerId : String) : List Review :=
  s.reviews.filter (fun r => r.centerId == centerId)

/-- Modelled from the spec: `ReviewRepository.find_reviews_by_center` from
`claon_admin/schema/center.py` (not in src).  The spec describes it as
listing the reviews of a center; the additional date/tag/answered filters
live in that missing repository code and no claim verified here depends on
them, so the query is modelled as returning the center's reviews. -/
def ReviewRepository.find_reviews_by_center (s : DBState) (centerId : String)
    (startDate endDate : Int) (tag : Option String) (is_answered : Option Bool) :
    List Review :=
  s.reviews.filter (fun r => r.centerId == centerId)

/-- Modelled from the spec: `ReviewAnswerRepository.find_by_review_id`
from `claon_admin/schema/center.py` (not in src) — the answer stored for a
review, if any. -/
def ReviewAnswerRepository.find_by_review_id (s : DBState) (reviewId : String) :
    Option ReviewAnswer :=
  s.answers.find? (fun a => a.reviewId == reviewId)

/-- Modelled from the spec: `ReviewAnswerRepository.save` from
`claon_admin/schema/center.py` (not in src) — insert one answer row and
return the saved row. -/
def ReviewAnswerRepository.save (s : DBState) (a : ReviewAnswer) : ReviewAnswer × DBState :=
  (a, { s with answers := s.answers ++ [a] })

/-- Modelled from the spec: `ReviewAnswerRepository.delete` from
`claon_admin/schema/center.py` (not in src) — delete the given answer row. -/
def ReviewAnswerRepository.delete (s : DBState) (a : ReviewAnswer) : DBState :=
  { s with answers := s.answers.erase a }

/-- In-place mutation of an answer row's content, as performed by
`answer.update(dto.answer_content)` inside `update_review_answer`
(`claon_admin/service/review.py`, line 143): every stored row equal to the
fetched one gets the new content. -/
def ReviewAnswerRepository.updateContent (s : DBState) (a : ReviewAnswer) (c : String) :
    DBState :=
  { s with answers := s.answers.map (fun x => if x == a then { x with content := c } else x) }

/-! ## DTOs -/

/-- Request body of answer creation and update
(`claon_admin/model/review.py`; the service only reads `answer_content`). -/
structure ReviewAnswerRequestDto where
  answer_content : String
deriving DecidableEq

/-- Modelled from the spec: `ReviewAnswerResponseDto` from
`claon_admin/model/review.py` (not in src).  The tests read `review_id`
from the result and the DTO carries the saved answer's content. -/
structure ReviewAnswerResponseDto where
  review_id : String
  content : String
deriving DecidableEq

/-- Modelled from the spec: `ReviewAnswerResponseDto.from_entity` — build
the response DTO from a stored answer row. -/
def ReviewAnswerResponseDto.from_entity (a : ReviewAnswer) : ReviewAnswerResponseDto :=
  ⟨a.reviewId, a.content⟩

/-- One tag tally of the review summary
(`claon_admin/service/review.py`, line 212). -/
structure ReviewTagDto where
  tag : String
  count : Nat
deriving DecidableEq

/-- Modelled from the spec: `ReviewSummaryResponseDto` from
`claon_admin/model/review.py` (not in src) — the center, the counts of
answered and unanswered reviews, and the tag tallies. -/
structure ReviewSummaryResponseDto where
  center_id : String
  answered_count : Nat
  not_answered_count : Nat
  tag_list : List ReviewTagDto
deriving DecidableEq

/-- Modelled from the spec: `ReviewSummaryResponseDto.from_entity` — the
service passes the center, the `Counter` over the per-review answered
booleans (modelled as its lookup function) and the tag tally list
(`claon_admin/service/review.py`, lines 209-213). -/
def ReviewSummaryResponseDto.from_entity (center : Center) (counter : Bool → Nat)
    (tagList : List ReviewTagDto) : ReviewSummaryResponseDto :=
  ⟨center.id, counter true, counter false, tagList⟩

/-! ## Python `collections.Counter` on a list of words -/

/-- Key list of `collections.Counter` built from a word list: the distinct
words in first-occurrence order. -/
def counterKeys : List String → List String
  | [] => []
  | w :: ws => w :: (counterKeys ws).filter (fun x => x != w)

/-- Items of `collections.Counter` built from a word list: each distinct
word paired with its number of occurrences. -/
def counterItems (l : List String) : List (String × Nat) :=
  (counterKeys l).map (fun w => (w, l.count w))

/-! ## The review service (`claon_admin/service/review.py`)

Each operation takes the database state and returns the `Except` outcome
paired with the state after the call.  Pagination (`paginate`) and the
brief-response DTO mapping of `find_reviews_by_center` are library code
outside the repository and are not modelled: the listing operation returns
the repository query result itself. -/

/-- Embedding of `ReviewService.find_reviews_by_center`
(`claon_admin/service/review.py`, lines 25-64).  Dates are modelled as
integer day ordinals, so `(end - start).days` is `endDate - startDate`. -/
def ReviewService.find_reviews_by_center (subjectId : String) (centerId : String)
    (startDate endDate : Int) (tag : Option String) (is_answered : Option Bool)
    (s : DBState) : Except ServiceException (List Review) × DBState :=
  match CenterRepository.find_by_id s centerId with
  | none => (.error (NotFoundException .DATA_DOES_NOT_EXIST "해당 암장이 존재하지 않습니다."), s)
  | some center =>
    if !center.is_owner subjectId then
      (.error (UnauthorizedException .NOT_ACCESSIBLE "암장 관리자가 아닙니다."), s)
    else if endDate - startDate > 365 ∨ endDate - startDate < 0 then
      (.error (BadRequestException .WRONG_DATE_RANGE "잘못된 날짜 범위입니다."), s)
    else
      (.ok (ReviewRepository.find_reviews_by_center s centerId startDate endDate
        tag is_answered), s)

/-- Embedding of `ReviewService.create_review_answer`
(`claon_admin/service/review.py`, lines 66-107). -/
def ReviewService.create_review_answer (subjectId : String) (dto : ReviewAnswerRequestDto)
    (centerId reviewId : String) (s : DBState) :
    Except ServiceException ReviewAnswerResponseDto × DBState :=
  match CenterRepository.find_by_id s centerId with
  | none => (.error (NotFoundException .DATA_DOES_NOT_EXIST "해당 암장이 존재하지 않습니다."), s)
  | some center =>
    if !center.is_owner subjectId then
      (.error (UnauthorizedException .NOT_ACCESSIBLE "암장 관리자가 아닙니다."), s)
    else
      match ReviewRepository.find_by_id_and_center_id s reviewId center.id with
      | none =>
        (.error (NotFoundException .DATA_DOES_NOT_EXIST "해당 리뷰가 암장에 존재하지 않습니다."), s)
      | some review =>
        match ReviewAnswerRepository.find_by_review_id s review.id with
        | some _ =>
          (.error (NotFoundException .ROW_ALREADY_EXIST "이미 작성된 답변이 존재합니다."), s)
        | none =>
          let new_answer : ReviewAnswer := ⟨dto.answer_content, review.id⟩
          let saved := ReviewAnswerRepository.save s new_answer
          (.ok (ReviewAnswerResponseDto.from_entity saved.1), saved.2)

/-- Embedding of `ReviewService.update_review_answer`
(`claon_admin/service/review.py`, lines 109-145). -/
def ReviewService.update_review_answer (subjectId : String) (dto : ReviewAnswerRequestDto)
    (centerId reviewId : String) (s : DBState) :
    Except ServiceException ReviewAnswerResponseDto × DBState :=
  match CenterRepository.find_by_id s centerId with
  | none => (.error (NotFoundException .DATA_DOES_NOT_EXIST "해당 암장이 존재하지 않습니다."), s)
  | some center =>
    if !center.is_owner subjectId then
      (.error (UnauthorizedException .NOT_ACCESSIBLE "암장 관리자가 아닙니다."), s)
    else
      match ReviewRepository.find_by_id_and_center_id s reviewId center.id with
      | none =>
        (.error (NotFoundException .DATA_DOES_NOT_EXIST "암장에 해당 리뷰가 존재하지 않습니다."), s)
      | some review =>
        match ReviewAnswerRepository.find_by_review_id s review.id with
        | none =>
          (.error (NotFoundException .DATA_DOES_NOT_EXIST "해당 리뷰에 답변이 존재하지 않습니다."), s)
        | some answer =>
          (.ok (ReviewAnswerResponseDto.from_entity { answer with content := dto.answer_content }),
            ReviewAnswerRepository.updateContent s answer dto.answer_content)

/-- Embedding of `ReviewService.delete_review_answer`
(`claon_admin/service/review.py`, lines 147-180). -/
def ReviewService.delete_review_answer (subjectId : String)
    (centerId reviewId : String) (s : DBState) :
    Except ServiceException Unit × DBState :=
  match CenterRepository.find_by_id s centerId with
  | none => (.error (NotFoundException .DATA_DOES_NOT_EXIST "해당 암장이 존재하지 않습니다."), s)
  | some center =>
    if !center.is_owner subjectId then
      (.error (UnauthorizedException .NOT_ACCESSIBLE "암장 관리자가 아닙니다."), s)
    else
      match ReviewRepository.find_by_id_and_center_id s reviewId center.id with
      | none =>
        (.error (NotFoundException .DATA_DOES_NOT_EXIST "암장에 해당 리뷰가 존재하지 않습니다."), s)
      | some review =>
        match ReviewAnswerRepository.find_by_review_id s review.id with
        | none =>
          (.error (NotFoundException .DATA_DOES_NOT_EXIST "해당 리뷰에 답변이 존재하지 않습니다."), s)
        | some answer =>
          (.ok (), ReviewAnswerRepository.delete s answer)

/-- Embedding of `ReviewService.find_reviews_summary_by_center`
(`claon_admin/service/review.py`, lines 182-213). -/
def ReviewService.find_reviews_summary_by_center (subjectId centerId : String)
    (s : DBState) : Except ServiceException ReviewSummaryResponseDto × DBState :=
  match CenterRepository.find_by_id s centerId with
  | none => (.error (NotFoundException .DATA_DOES_NOT_EXIST "해당 암장이 존재하지 않습니다."), s)
  | some center =>
    if !center.is_owner subjectId then
      (.error (UnauthorizedException .NOT_ACCESSIBLE "암장 관리자가 아닙니다."), s)
    else
      let reviews := ReviewRepository.find_all_by_center s center.id
      let is_answer := reviews.map (fun review => !review.answerId.isNone)
      let tags := reviews.map (fun review => review.tag)
      let tag_list := (tags.flatten).map (fun t => t.word)
      (.ok (ReviewSummaryResponseDto.from_entity center (fun b => is_answer.count b)
        ((counterItems tag_list).map (fun p => ReviewTagDto.mk p.1 p.2))), s)

/-! ## Request validation (`claon_admin/model/center.py`)

Each pydantic `@validator` is embedded as a function from the raw field
value to `Except`: `.error` models the validator raising, `.ok v` models
the validator returning `v` as the validated field value. -/

/-- Operating-time request DTO (`claon_admin/model/center.py`, lines 11-14). -/
structure CenterOperatingTimeDto where
  day_of_week : String
  start_time : String
  end_time : String
deriving DecidableEq

/-- The enumerated day values of `validate_day_of_week`
(`claon_admin/model/center.py`, line 18). -/
def enumeratedDays : List String :=
  ["월", "화", "수", "목", "금", "토", "일", "공휴일"]

/-- Embedding of `CenterOperatingTimeDto.validate_day_of_week`
(`claon_admin/model/center.py`, lines 16-20). -/
def CenterOperatingTimeDto.validate_day_of_week (value : String) : Except String String :=
  if value ∉ enumeratedDays then
    .error "요일은 월, 화, 수, 목, 금, 토, 일 중 하나로 입력 해주세요."
  else
    .ok value

/-- Code-point ranges of the Unicode decimal digits (category Nd): the
characters matched by the decimal-digit class `\d` of Python's `re`
module on `str` patterns. -/
def ndRanges : List (Nat × Nat) :=
  [(48, 57), (1632, 1641), (1776, 1785), (1984, 1993), (2406, 2415), (2534,
   2543), (2662, 2671), (2790, 2799), (2918, 2927), (3046, 3055), (3174,
   3183), (3302, 3311), (3430, 3439), (3558, 3567), (3664, 3673), (3792,
   3801), (3872, 3881), (4160, 4169), (4240, 4249), (6112, 6121), (6160,
   6169), (6470, 6479), (6608, 6617), (6784, 6793), (6800, 6809), (6992,
   7001), (7088, 7097), (7232, 7241), (7248, 7257), (42528, 42537), (43216,
   43225), (43264, 43273), (43472, 43481), (43504, 43513), (43600, 43609),
   (44016, 44025), (65296, 65305), (66720, 66729), (68912, 68921), (69734,
   69743), (69872, 69881), (69942, 69951), (70096, 70105), (70384, 70393),
   (70736, 70745), (70864, 70873), (71248, 71257), (71360, 71369), (71472,
   71481), (71904, 71913), (72016, 72025), (72784, 72793), (73040, 73049),
   (73120, 73129), (92768, 92777), (92864, 92873), (93008, 93017), (120782,
   120831), (123200, 123209), (123632, 123641), (125264, 125273), (130032,
   130041)]

/-- Whether a character belongs to the `\d` class of Python's `re` module
on `str` patterns: any Unicode decimal digit (category Nd). -/
def isUnicodeDigit (c : Char) : Bool :=
  ndRanges.any (fun p => decide (p.1 ≤ c.toNat ∧ c.toNat ≤ p.2))

/-- Matcher for `re.match(r'^(0\d|1\d|2[0-3]):(0[1-9]|[0-5]\d)$', value)`
used by `validate_start_time` and `validate_end_time`
(`claon_admin/model/center.py`, lines 24 and 30), with Python's semantics:
`\d` matches any Unicode decimal digit, and the `$` anchor matches at the
end of the string or just before one trailing newline. -/
def matchesTimePattern (v : String) : Bool :=
  match v.toList with
  | h1 :: h2 :: sep :: m1 :: m2 :: rest =>
    (rest == [] || rest == ['\n'])
    && sep == ':'
    && ((h1 == '0' && isUnicodeDigit h2)
        || (h1 == '1' && isUnicodeDigit h2)
        || (h1 == '2' && decide ('0' ≤ h2 ∧ h2 ≤ '3')))
    && ((m1 == '0' && decide ('1' ≤ m2 ∧ m2 ≤ '9'))
        || (decide ('0' ≤ m1 ∧ m1 ≤ '5') && isUnicodeDigit m2))
  | _ => false

/-- Embedding of `CenterOperatingTimeDto.validate_start_time`
(`claon_admin/model/center.py`, lines 22-26). -/
def CenterOperatingTimeDto.validate_start_time (value : String) : Except String String :=
  if !matchesTimePattern value then
    .error "올바른 시간 형식으로 입력 해주세요."
  else
    .ok value

/-- Embedding of `CenterOperatingTimeDto.validate_end_time`
(`claon_admin/model/center.py`, lines 28-32). -/
def CenterOperatingTimeDto.validate_end_time (value : String) : Except String String :=
  if !matchesTimePattern value then
    .error "올바른 시간 형식으로 입력 해주세요."
  else
    .ok value

/-- Validation of a whole `CenterOperatingTimeDto`: each field validator
runs on its field and the validated DTO is built from the returned
values. -/
def CenterOperatingTimeDto.validate (dto : CenterOperatingTimeDto) :
    Except String CenterOperatingTimeDto :=
  match CenterOperatingTimeDto.validate_day_of_week dto.day_of_week with
  | .error m => .error m
  | .ok d =>
    match CenterOperatingTimeDto.validate_start_time dto.start_time with
    | .error m => .error m
    | .ok st =>
      match CenterOperatingTimeDto.validate_end_time dto.end_time with
      | .error m => .error m
      | .ok et => .ok ⟨d, st, et⟩

/-- Fee request DTO (`claon_admin/model/center.py`, lines 35-38). -/
structure CenterFeeDto where
  name : String
  price : Int
  count : Int
deriving DecidableEq

/-- Embedding of `CenterFeeDto.validate_name`
(`claon_admin/model/center.py`, lines 40-44); `len(value)` is the string
length. -/
def CenterFeeDto.validate_name (value : String) : Except String String :=
  if value.length < 2 ∨ value.length > 50 then
    .error "이름은 2자 이상 50자 이하로 입력 해주세요."
  else
    .ok value

/-- Embedding of `CenterFeeDto.validate_price`
(`claon_admin/model/center.py`, lines 46-50). -/
def CenterFeeDto.validate_price (value : Int) : Except String Int :=
  if value < 0 then
    .error "가격은 0원 이상으로 입력 해주세요."
  else
    .ok value

/-- Embedding of `CenterFeeDto.validate_count`
(`claon_admin/model/center.py`, lines 52-56). -/
def CenterFeeDto.validate_count (value : Int) : Except String Int :=
  if value < 0 then
    .error "횟수는 0회 이상으로 입력 해주세요."
  else
    .ok value

/-- Validation of a whole `CenterFeeDto`. -/
def CenterFeeDto.validate (dto : CenterFeeDto) : Except String CenterFeeDto :=
  match CenterFeeDto.validate_name dto.name with
  | .error m => .error m
  | .ok n =>
    match CenterFeeDto.validate_price dto.price with
    | .error m => .error m
    | .ok p =>
      match CenterFeeDto.validate_count dto.count with
      | .error m => .error m
      | .ok c => .ok ⟨n, p, c⟩

/-- Embedding of `CenterRequestDto.validate_youtube_code`
(`claon_admin/model/center.py`, lines 159-165).  On a non-null value
starting with `@` the Python function falls off the end and implicitly
returns `None`; indexing `value[0]` on an empty string raises, which is
also an error outcome. -/
def validate_youtube_code (value : Option String) : Except String (Option String) :=
  match value with
  | none => .ok none
  | some v =>
    match v.toList with
    | [] => .error "string index out of range"
    | c :: _ =>
      if c != '@' then
        .error "유튜브 채널 코드는 @로 시작 해주세요."
      else
        .ok none

/-! ## Spec-side restatements used by the claims -/

/-- Whether an `Except` outcome is an error (a raised exception). -/
def isErr {ε α : Type} (x : Except ε α) : Bool :=
  match x with
  | .error _ => true
  | .ok _ => false

/-- Spec-side reading of the time pattern of claim C6: a five-character
string `HH:MM` whose hour, read from two decimal digits, is at most 23 and
whose minute is at most 59. -/
def timeWellFormed (v : String) : Prop :=
  ∃ h1 h2 m1 m2, v.toList = [h1, h2, ':', m1, m2] ∧
    h1.isDigit ∧ h2.isDigit ∧ m1.isDigit ∧ m2.isDigit ∧
    10 * (h1.toNat - 48) + (h2.toNat - 48) ≤ 23 ∧
    10 * (m1.toNat - 48) + (m2.toNat - 48) ≤ 59

/-- Spec-side reading of the strings the time validators accept, following
the Python regex semantics: the five-character shape of the pattern,
optionally followed by one trailing newline (the `$` anchor), with `\d`
read as any Unicode decimal digit. -/
def timeAccepted (v : String) : Prop :=
  ∃ h1 h2 m1 m2 rest, v.toList = h1 :: h2 :: ':' :: m1 :: m2 :: rest ∧
    (rest = [] ∨ rest = ['\n']) ∧
    (((h1 = '0' ∨ h1 = '1') ∧ isUnicodeDigit h2 = true) ∨
      (h1 = '2' ∧ '0' ≤ h2 ∧ h2 ≤ '3')) ∧
    ((m1 = '0' ∧ '1' ≤ m2 ∧ m2 ≤ '9') ∨
      ('0' ≤ m1 ∧ m1 ≤ '5' ∧ isUnicodeDigit m2 = true))

/-- Concatenation of the tag words of every review of a center, in review
order: the word list whose frequency count the summary reports. -/
def centerTagWords (s : DBState) (centerId : String) : List String :=
  (((ReviewRepository.find_all_by_center s centerId).map
    (fun review => review.tag)).flatten).map (fun t => t.word)

/-- The at-most-one-answer ownership constraint of the spec (section 3):
for every review id, at most one stored answer row references it. -/
def atMostOneAnswer (s : DBState) : Prop :=
  ∀ rid : String, (s.answers.countP (fun a => a.reviewId == rid)) ≤ 1

/-- An exception is one of the three flat kinds of spec section 7. -/
def threeKinds (e : ServiceException) : Prop :=
  e.kind = ExceptionKind.notFound ∨ e.kind = ExceptionKind.unauthorized ∨
    e.kind = ExceptionKind.badRequest

/-! ## Concrete sample data for witnesses -/

/-- Sample center owned by user `u1`. -/
def centerA : Center := ⟨"c1", "u1"⟩

/-- Sample review of `centerA` without an answer. -/
def reviewA : Review := ⟨"r1", "c1", none, [⟨"좋아요"⟩, ⟨"친절해요"⟩]⟩

/-- Sample review of `centerA` that already has an answer. -/
def reviewB : Review := ⟨"r2", "c1", some "a1", [⟨"좋아요"⟩]⟩

/-- The stored answer of `reviewB`. -/
def answerB : ReviewAnswer := ⟨"감사합니다", "r2"⟩

/-- Sample database state. -/
def sampleState : DBState := ⟨[centerA], [reviewA, reviewB], [answerB]⟩

/-! ## Helper lemmas -/

theorem char_le_iff {a b : Char} : a ≤ b ↔ a.toNat ≤ b.toNat := Iff.rfl

theorem char_eq_iff {a b : Char} : a = b ↔ a.toNat = b.toNat := by
  constructor
  · intro h; rw [h]
  · intro h
    have h2 := congrArg Char.ofNat h
    rwa [Char.ofNat_toNat, Char.ofNat_toNat] at h2

theorem char_isDigit_iff {c : Char} : c.isDigit = true ↔ 48 ≤ c.toNat ∧ c.toNat ≤ 57 := by
  simp [Char.isDigit]
  exact Iff.rfl

theorem toNat_c0 : ('0' : Char).toNat = 48 := rfl

theorem toNat_c1 : ('1' : Char).toNat = 49 := rfl

theorem toNat_c2 : ('2' : Char).toNat = 50 := rfl

theorem toNat_c3 : ('3' : Char).toNat = 51 := rfl

theorem toNat_c5 : ('5' : Char).toNat = 53 := rfl

theorem toNat_c9 : ('9' : Char).toNat = 57 := rfl

theorem toNat_colon : (':' : Char).toNat = 58 := rfl

/-- The transcribed matcher accepts exactly the strings described by
`timeAccepted`: the pattern shape with Unicode digits in the two `\d`
positions and an optional trailing newline. -/
theorem matchesTimePattern_iff (v : String) :
    matchesTimePattern v = true ↔ timeAccepted v := by
  unfold matchesTimePattern timeAccepted
  rcases hv : v.toList with _ | ⟨h1, _ | ⟨h2, _ | ⟨sep, _ | ⟨m1, _ | ⟨m2, rest⟩⟩⟩⟩⟩ <;>
    simp only [hv, List.cons.injEq, List.nil_eq, reduceCtorEq, and_false, false_and,
      exists_false, iff_false, Bool.false_eq_true, not_false_eq_true]
  constructor
  · intro h
    simp only [Bool.and_eq_true, Bool.or_eq_true, beq_iff_eq, decide_eq_true_eq] at h
    obtain ⟨⟨⟨hrest, hsep⟩, hhour⟩, hmin⟩ := h
    refine ⟨h1, h2, m1, m2, rest, ⟨rfl, rfl, hsep, rfl, rfl, rfl⟩, hrest, ?_, ?_⟩
    · rcases hhour with (⟨e, hd⟩ | ⟨e, hd⟩) | ⟨e, hd⟩
      · exact Or.inl ⟨Or.inl e, hd⟩
      · exact Or.inl ⟨Or.inr e, hd⟩
      · exact Or.inr ⟨e, hd⟩
    · rcases hmin with ⟨e, hd⟩ | ⟨hd, hD⟩
      · exact Or.inl ⟨e, hd⟩
      · exact Or.inr ⟨hd.1, hd.2, hD⟩
  · rintro ⟨a, b, c, d, r, ⟨e1, e2, e3, e4, e5, e6⟩, hrest, hhour, hmin⟩
    subst e1; subst e2; subst e3; subst e4; subst e5; subst e6
    simp only [Bool.and_eq_true, Bool.or_eq_true, beq_iff_eq, decide_eq_true_eq]
    refine ⟨⟨⟨hrest, trivial⟩, ?_⟩, ?_⟩
    · rcases hhour with ⟨e | e, hd⟩ | ⟨e, hd1, hd2⟩
      · exact Or.inl (Or.inl ⟨e, hd⟩)
      · exact Or.inl (Or.inr ⟨e, hd⟩)
      · exact Or.inr ⟨e, hd1, hd2⟩
    · rcases hmin with ⟨e, hd1, hd2⟩ | ⟨h0, h5, hD⟩
      · exact Or.inl ⟨e, hd1, hd2⟩
      · exact Or.inr ⟨⟨h0, h5⟩, hD⟩

/-- ASCII decimal digits belong to the Unicode decimal-digit class. -/
theorem isUnicodeDigit_of_ascii {c : Char} (hl : 48 ≤ c.toNat) (hr : c.toNat ≤ 57) :
    isUnicodeDigit c = true := by
  unfold isUnicodeDigit
  rw [List.any_eq_true]
  refine ⟨(48, 57), by decide, ?_⟩
  simp only [decide_eq_true_eq]
  exact ⟨hl, hr⟩

/-- The only Unicode decimal digits among the ASCII characters are the
ASCII digits `0`-`9`. -/
theorem ascii_of_isUnicodeDigit {c : Char} (h : isUnicodeDigit c = true)
    (hle : c.toNat ≤ 127) : 48 ≤ c.toNat ∧ c.toNat ≤ 57 := by
  unfold isUnicodeDigit at h
  rw [List.any_eq_true] at h
  obtain ⟨p, hp, hcond⟩ := h
  simp only [decide_eq_true_eq] at hcond
  have hfacts : ∀ q ∈ ndRanges, (q.1 = 48 ∧ q.2 = 57) ∨ 127 < q.1 := by decide
  rcases hfacts p hp with ⟨ha, hb⟩ | hgt
  · omega
  · omega

/-- On the five-character all-ASCII strings with no trailing newline, the
accepted time strings are exactly the well-formed `HH:MM` times of day. -/
theorem timeWellFormed_iff_ascii (v : String) :
    timeWellFormed v ↔
      (timeAccepted v ∧ v.toList.length = 5 ∧
        v.toList.all (fun c => decide (c.toNat ≤ 127)) = true) := by
  constructor
  · rintro ⟨h1, h2, m1, m2, hl, hd1, hd2, hd3, hd4, hh, hm⟩
    rw [char_isDigit_iff] at hd1 hd2 hd3 hd4
    refine ⟨⟨h1, h2, m1, m2, [], by rw [hl], Or.inl rfl, ?_, ?_⟩, by rw [hl]; rfl, ?_⟩
    · have hcase : h1.toNat = 48 ∨ h1.toNat = 49 ∨ h1.toNat = 50 := by omega
      rcases hcase with e | e | e
      · exact Or.inl ⟨Or.inl (char_eq_iff.mpr (by rw [toNat_c0]; exact e)),
          isUnicodeDigit_of_ascii hd2.1 hd2.2⟩
      · exact Or.inl ⟨Or.inr (char_eq_iff.mpr (by rw [toNat_c1]; exact e)),
          isUnicodeDigit_of_ascii hd2.1 hd2.2⟩
      · refine Or.inr ⟨char_eq_iff.mpr (by rw [toNat_c2]; exact e), ?_, ?_⟩
        · rw [char_le_iff, toNat_c0]
          omega
        · rw [char_le_iff, toNat_c3]
          omega
    · refine Or.inr ⟨?_, ?_, isUnicodeDigit_of_ascii hd4.1 hd4.2⟩
      · rw [char_le_iff, toNat_c0]
        omega
      · rw [char_le_iff, toNat_c5]
        omega
    · rw [hl]
      simp only [List.all_cons, List.all_nil, Bool.and_eq_true, decide_eq_true_eq, and_true]
      refine ⟨by omega, by omega, by decide, by omega, by omega⟩
  · rintro ⟨⟨h1, h2, m1, m2, rest, hl, hrest, hhour, hmin⟩, hlen, hascii⟩
    have hr : rest = [] := by
      rcases hrest with e | e
      · exact e
      · rw [hl, e] at hlen
        simp at hlen
    subst hr
    rw [hl] at hascii
    simp only [List.all_cons, List.all_nil, Bool.and_eq_true, decide_eq_true_eq,
      and_true] at hascii
    obtain ⟨a1, a2, a3, a4, a5⟩ := hascii
    have hhour2 : ((h1.toNat = 48 ∨ h1.toNat = 49) ∧ 48 ≤ h2.toNat ∧ h2.toNat ≤ 57) ∨
        (h1.toNat = 50 ∧ 48 ≤ h2.toNat ∧ h2.toNat ≤ 51) := by
      rcases hhour with ⟨e01, hD⟩ | ⟨e2, h0, h3⟩
      · have hb := ascii_of_isUnicodeDigit hD a2
        rcases e01 with e | e
        · exact Or.inl ⟨Or.inl (by rw [e, toNat_c0]), hb⟩
        · exact Or.inl ⟨Or.inr (by rw [e, toNat_c1]), hb⟩
      · refine Or.inr ⟨by rw [e2, toNat_c2], ?_, ?_⟩
        · rw [char_le_iff, toNat_c0] at h0
          exact h0
        · rw [char_le_iff, toNat_c3] at h3
          exact h3
    have hmin2 : 48 ≤ m1.toNat ∧ m1.toNat ≤ 53 ∧ 48 ≤ m2.toNat ∧ m2.toNat ≤ 57 := by
      rcases hmin with ⟨e, hge, hle9⟩ | ⟨hge0, hle5, hD⟩
      · have e0 : m1.toNat = 48 := by rw [e, toNat_c0]
        rw [char_le_iff, toNat_c1] at hge
        rw [char_le_iff, toNat_c9] at hle9
        omega
      · have hb := ascii_of_isUnicodeDigit hD a5
        rw [char_le_iff, toNat_c0] at hge0
        rw [char_le_iff, toNat_c5] at hle5
        exact ⟨hge0, hle5, hb⟩
    refine ⟨h1, h2, m1, m2, hl, char_isDigit_iff.mpr (by omega),
      char_isDigit_iff.mpr (by omega), char_isDigit_iff.mpr (by omega),
      char_isDigit_iff.mpr (by omega), by omega, by omega⟩

/-- Membership in the `Counter` key list is membership in the word list. -/
theorem mem_counterKeys (l : List String) (w : String) : w ∈ counterKeys l ↔ w ∈ l := by
  induction l with
  | nil => simp [counterKeys]
  | cons x xs ih =>
    rw [counterKeys]
    by_cases hw : w = x
    · subst hw; simp
    · simp [List.mem_filter, hw, ih]

/-- Counting `true` over the answered flags is the number of answered
reviews. -/
theorem count_true_answered (reviews : List Review) :
    (reviews.map (fun r => !r.answerId.isNone)).count true
      = (reviews.filter (fun r => r.answerId.isSome)).length := by
  have hfun : (fun (r : Review) => !r.answerId.isNone) = (fun r => r.answerId.isSome) := by
    funext r; cases r.answerId <;> simp
  rw [hfun]
  induction reviews with
  | nil => simp
  | cons r rs ih => cases h : r.answerId <;> simp [h, List.count_cons, ih]

/-- Counting `false` over the answered flags is the number of unanswered
reviews. -/
theorem count_false_unanswered (reviews : List Review) :
    (reviews.map (fun r => !r.answerId.isNone)).count false
      = (reviews.filter (fun r => r.answerId.isNone)).length := by
  have hfun : (fun (r : Review) => !r.answerId.isNone) = (fun r => r.answerId.isSome) := by
    funext r; cases r.answerId <;> simp
  rw [hfun]
  induction reviews with
  | nil => simp
  | cons r rs ih => cases h : r.answerId <;> simp [h, List.count_cons, ih]

/-- Mapping a function that leaves a predicate unchanged does not change
the `countP`. -/
theorem countP_map_preserve {α : Type} (f : α → α) (p : α → Bool)
    (h : ∀ x, p (f x) = p x) (l : List α) :
    (l.map f).countP p = l.countP p := by
  induction l with
  | nil => simp
  | cons x xs ih => simp [List.countP_cons, h, ih]

/-- The listing operation never changes the state. -/
theorem find_reviews_state (subj cid : String) (startDate endDate : Int)
    (tag : Option String) (is_answered : Option Bool) (s : DBState) :
    (ReviewService.find_reviews_by_center subj cid startDate endDate tag is_answered s).2
      = s := by
  unfold ReviewService.find_reviews_by_center
  split
  · rfl
  · split
    · rfl
    · split
      · rfl
      · rfl

/-- The summary operation never changes the state. -/
theorem summary_state (subj cid : String) (s : DBState) :
    (ReviewService.find_reviews_summary_by_center subj cid s).2 = s := by
  unfold ReviewService.find_reviews_summary_by_center
  split
  · rfl
  · split
    · rfl
    · rfl

/-- State trace of answer creation: either the state is unchanged, or one
answer row for a review that had none was appended. -/
theorem create_state_cases (subj : String) (dto : ReviewAnswerRequestDto)
    (cid rid : String) (s : DBState) :
    (ReviewService.create_review_answer subj dto cid rid s).2 = s ∨
    ∃ r : Review, ReviewAnswerRepository.find_by_review_id s r.id = none ∧
      (ReviewService.create_review_answer subj dto cid rid s).2
        = { s with answers := s.answers ++ [⟨dto.answer_content, r.id⟩] } := by
  unfold ReviewService.create_review_answer
  cases hc : CenterRepository.find_by_id s cid with
  | none => left; rfl
  | some c =>
    cases ho : c.is_owner subj with
    | false => left; simp [ho]
    | true =>
      cases hr : ReviewRepository.find_by_id_and_center_id s rid c.id with
      | none => left; simp [ho, hr]
      | some r =>
        cases ha : ReviewAnswerRepository.find_by_review_id s r.id with
        | some a => left; simp [ho, hr, ha]
        | none =>
          right
          refine ⟨r, ha, ?_⟩
          simp [ho, hr, ha, ReviewAnswerRepository.save]

/-- State trace of answer update: either the state is unchanged or one
stored answer row had its content replaced. -/
theorem update_state_cases (subj : String) (dto : ReviewAnswerRequestDto)
    (cid rid : String) (s : DBState) :
    (ReviewService.update_review_answer subj dto cid rid s).2 = s ∨
    ∃ a : ReviewAnswer,
      (ReviewService.update_review_answer subj dto cid rid s).2
        = ReviewAnswerRepository.updateContent s a dto.answer_content := by
  unfold ReviewService.update_review_answer
  cases hc : CenterRepository.find_by_id s cid with
  | none => left; rfl
  | some c =>
    cases ho : c.is_owner subj with
    | false => left; simp [ho]
    | true =>
      cases hr : ReviewRepository.find_by_id_and_center_id s rid c.id with
      | none => left; simp [ho, hr]
      | some r =>
        cases ha : ReviewAnswerRepository.find_by_review_id s r.id with
        | none => left; simp [ho, hr, ha]
        | some a =>
          right
          refine ⟨a, ?_⟩
          simp [ho, hr, ha]

/-- State trace of answer deletion: either the state is unchanged or one
stored answer row was erased. -/
theorem delete_state_cases (subj : String) (cid rid : String) (s : DBState) :
    (ReviewService.delete_review_answer subj cid rid s).2 = s ∨
    ∃ a : ReviewAnswer,
      (ReviewService.delete_review_answer subj cid rid s).2
        = ReviewAnswerRepository.delete s a := by
  unfold ReviewService.delete_review_answer
  cases hc : CenterRepository.find_by_id s cid with
  | none => left; rfl
  | some c =>
    cases ho : c.is_owner subj with
    | false => left; simp [ho]
    | true =>
      cases hr : ReviewRepository.find_by_id_and_center_id s rid c.id with
      | none => left; simp [ho, hr]
      | some r =>
        cases ha : ReviewAnswerRepository.find_by_review_id s r.id with
        | none => left; simp [ho, hr, ha]
        | some a =>
          right
          refine ⟨a, ?_⟩
          simp [ho, hr, ha]

/-! ## Claim theorems -/

/-- C1: `create_review_answer` rejects — raising an exception and leaving the
state untouched — when the center is missing, when the requester is not the
center's owner, when the review is missing from that center, or when an
answer for the review already exists; otherwise it saves exactly one new
`ReviewAnswer` whose content is the request's `answer_content` and whose
review is the found review, and returns the DTO built from the saved row. -/
theorem create_review_answer_spec (subj : String) (dto : ReviewAnswerRequestDto)
    (cid rid : String) (s : DBState) :
    (CenterRepository.find_by_id s cid = none →
      ReviewService.create_review_answer subj dto cid rid s
        = (.error (NotFoundException .DATA_DOES_NOT_EXIST "해당 암장이 존재하지 않습니다."), s)) ∧
    (∀ c, CenterRepository.find_by_id s cid = some c → c.is_owner subj = false →
      ReviewService.create_review_answer subj dto cid rid s
        = (.error (UnauthorizedException .NOT_ACCESSIBLE "암장 관리자가 아닙니다."), s)) ∧
    (∀ c, CenterRepository.find_by_id s cid = some c → c.is_owner subj = true →
      ReviewRepository.find_by_id_and_center_id s rid c.id = none →
      ReviewService.create_review_answer subj dto cid rid s
        = (.error (NotFoundException .DATA_DOES_NOT_EXIST "해당 리뷰가 암장에 존재하지 않습니다."), s)) ∧
    (∀ c r a, CenterRepository.find_by_id s cid = some c → c.is_owner subj = true →
      ReviewRepository.find_by_id_and_center_id s rid c.id = some r →
      ReviewAnswerRepository.find_by_review_id s r.id = some a →
      ReviewService.create_review_answer subj dto cid rid s
        = (.error (NotFoundException .ROW_ALREADY_EXIST "이미 작성된 답변이 존재합니다."), s)) ∧
    (∀ c r, CenterRepository.find_by_id s cid = some c → c.is_owner subj = true →
      ReviewRepository.find_by_id_and_center_id s rid c.id = some r →
      ReviewAnswerRepository.find_by_review_id s r.id = none →
      ReviewService.create_review_answer subj dto cid rid s
        = (.ok (ReviewAnswerResponseDto.from_entity ⟨dto.answer_content, r.id⟩),
           { s with answers := s.answers ++ [⟨dto.answer_content, r.id⟩] })) := by
  refine ⟨?_, ?_, ?_, ?_, ?_⟩
  · intro h
    simp [ReviewService.create_review_answer, h]
  · intro c hc ho
    simp [ReviewService.create_review_answer, hc, ho]
  · intro c hc ho hr
    simp [ReviewService.create_review_answer, hc, ho, hr]
  · intro c r a hc ho hr ha
    simp [ReviewService.create_review_answer, hc, ho, hr, ha]
  · intro c r hc ho hr ha
    simp [ReviewService.create_review_answer, hc, ho, hr, ha, ReviewAnswerRepository.save]

/-- Witness for C1: the success path on the sample state. -/
theorem create_review_answer_spec_witness :
    CenterRepository.find_by_id sampleState "c1" = some centerA ∧
    centerA.is_owner "u1" = true ∧
    ReviewRepository.find_by_id_and_center_id sampleState "r1" centerA.id = some reviewA ∧
    ReviewAnswerRepository.find_by_review_id sampleState reviewA.id = none ∧
    ReviewService.create_review_answer "u1" ⟨"새 답변"⟩ "c1" "r1" sampleState
      = (.ok (ReviewAnswerResponseDto.from_entity ⟨"새 답변", reviewA.id⟩),
         { sampleState with answers := sampleState.answers ++ [⟨"새 답변", reviewA.id⟩] }) := by
  refine ⟨rfl, rfl, rfl, rfl, ?_⟩
  exact (create_review_answer_spec "u1" ⟨"새 답변"⟩ "c1" "r1" sampleState).2.2.2.2
    centerA reviewA rfl rfl rfl rfl

/-- C2: when the center exists, the requester owns it, the review exists in
that center and an answer for it already exists, `create_review_answer`
fails with the conflict error: the exception carrying
`ErrorCode.ROW_ALREADY_EXIST` ("an answer already exists"), raised in the
code as a `NotFoundException` with that code. -/
theorem create_review_answer_conflict (subj : String) (dto : ReviewAnswerRequestDto)
    (cid rid : String) (s : DBState) (c : Center) (r : Review) (a : ReviewAnswer)
    (hc : CenterRepository.find_by_id s cid = some c)
    (ho : c.is_owner subj = true)
    (hr : ReviewRepository.find_by_id_and_center_id s rid c.id = some r)
    (ha : ReviewAnswerRepository.find_by_review_id s r.id = some a) :
    ReviewService.create_review_answer subj dto cid rid s
      = (.error (NotFoundException .ROW_ALREADY_EXIST "이미 작성된 답변이 존재합니다."), s) := by
  simp [ReviewService.create_review_answer, hc, ho, hr, ha]

/-- Witness for C2: answering the already-answered sample review fails with
the `ROW_ALREADY_EXIST` error. -/
theorem create_review_answer_conflict_witness :
    CenterRepository.find_by_id sampleState "c1" = some centerA ∧
    centerA.is_owner "u1" = true ∧
    ReviewRepository.find_by_id_and_center_id sampleState "r2" centerA.id = some reviewB ∧
    ReviewAnswerRepository.find_by_review_id sampleState reviewB.id = some answerB ∧
    ReviewService.create_review_answer "u1" ⟨"추가 답변"⟩ "c1" "r2" sampleState
      = (.error (NotFoundException .ROW_ALREADY_EXIST "이미 작성된 답변이 존재합니다."), sampleState) := by
  refine ⟨rfl, rfl, rfl, rfl, ?_⟩
  exact create_review_answer_conflict "u1" ⟨"추가 답변"⟩ "c1" "r2" sampleState
    centerA reviewB answerB rfl rfl rfl rfl

/-- C3: for every `ReviewService` operation, when the center exists but the
requesting subject is not its owner (`center.is_owner subject.id` is
false), the operation rejects with the unauthorized error and performs no
further work: the returned state is the input state. -/
theorem ownership_guard_unauthorized (s : DBState) (subj cid : String) (c : Center)
    (hc : CenterRepository.find_by_id s cid = some c)
    (ho : c.is_owner subj = false) :
    (∀ startDate endDate tag is_answered,
      ReviewService.find_reviews_by_center subj cid startDate endDate tag is_answered s
        = (.error (UnauthorizedException .NOT_ACCESSIBLE "암장 관리자가 아닙니다."), s)) ∧
    (∀ dto rid,
      ReviewService.create_review_answer subj dto cid rid s
        = (.error (UnauthorizedException .NOT_ACCESSIBLE "암장 관리자가 아닙니다."), s)) ∧
    (∀ dto rid,
      ReviewService.update_review_answer subj dto cid rid s
        = (.error (UnauthorizedException .NOT_ACCESSIBLE "암장 관리자가 아닙니다."), s)) ∧
    (∀ rid,
      ReviewService.delete_review_answer subj cid rid s
        = (.error (UnauthorizedException .NOT_ACCESSIBLE "암장 관리자가 아닙니다."), s)) ∧
    ReviewService.find_reviews_summary_by_center subj cid s
      = (.error (UnauthorizedException .NOT_ACCESSIBLE "암장 관리자가 아닙니다."), s) := by
  refine ⟨?_, ?_, ?_, ?_, ?_⟩
  · intro startDate endDate tag is_answered
    simp [ReviewService.find_reviews_by_center, hc, ho]
  · intro dto rid
    simp [ReviewService.create_review_answer, hc, ho]
  · intro dto rid
    simp [ReviewService.update_review_answer, hc, ho]
  · intro rid
    simp [ReviewService.delete_review_answer, hc, ho]
  · simp [ReviewService.find_reviews_summary_by_center, hc, ho]

/-- Witness for C3: the five operations called by non-owner `u2` on the
sample center all fail unauthorized. -/
theorem ownership_guard_unauthorized_witness :
    CenterRepository.find_by_id sampleState "c1" = some centerA ∧
    centerA.is_owner "u2" = false ∧
    ReviewService.find_reviews_by_center "u2" "c1" 0 10 none none sampleState
      = (.error (UnauthorizedException .NOT_ACCESSIBLE "암장 관리자가 아닙니다."), sampleState) ∧
    ReviewService.create_review_answer "u2" ⟨"답변"⟩ "c1" "r1" sampleState
      = (.error (UnauthorizedException .NOT_ACCESSIBLE "암장 관리자가 아닙니다."), sampleState) ∧
    ReviewService.update_review_answer "u2" ⟨"답변"⟩ "c1" "r2" sampleState
      = (.error (UnauthorizedException .NOT_ACCESSIBLE "암장 관리자가 아닙니다."), sampleState) ∧
    ReviewService.delete_review_answer "u2" "c1" "r2" sampleState
      = (.error (UnauthorizedException .NOT_ACCESSIBLE "암장 관리자가 아닙니다."), sampleState) ∧
    ReviewService.find_reviews_summary_by_center "u2" "c1" sampleState
      = (.error (UnauthorizedException .NOT_ACCESSIBLE "암장 관리자가 아닙니다."), sampleState) := by
  have h := ownership_guard_unauthorized sampleState "u2" "c1" centerA rfl rfl
  exact ⟨rfl, rfl, h.1 0 10 none none, h.2.1 ⟨"답변"⟩ "r1", h.2.2.1 ⟨"답변"⟩ "r2",
    h.2.2.2.1 "r2", h.2.2.2.2⟩

/-- C10: `create_review_answer` is atomic with respect to answer storage —
on every failing run the exception is raised before
`review_answer_repository.save` runs, so the stored review answers are
unchanged whenever the operation errors. -/
theorem create_review_answer_error_no_write (subj : String) (dto : ReviewAnswerRequestDto)
    (cid rid : String) (s : DBState) (e : ServiceException) (s2 : DBState)
    (h : ReviewService.create_review_answer subj dto cid rid s = (.error e, s2)) :
    s2.answers = s.answers := by
  revert h
  unfold ReviewService.create_review_answer
  cases hc : CenterRepository.find_by_id s cid with
  | none =>
    intro h
    simp at h
    rw [← h.2]
  | some c =>
    cases ho : c.is_owner subj with
    | false =>
      intro h
      simp [ho] at h
      rw [← h.2]
    | true =>
      cases hr : ReviewRepository.find_by_id_and_center_id s rid c.id with
      | none =>
        intro h
        simp [ho, hr] at h
        rw [← h.2]
      | some r =>
        cases ha : ReviewAnswerRepository.find_by_review_id s r.id with
        | some a =>
          intro h
          simp [ho, hr, ha] at h
          rw [← h.2]
        | none =>
          intro h
          simp [ho, hr, ha, ReviewAnswerRepository.save] at h

/-- Witness for C10: the already-answered failing run leaves the stored
answers unchanged. -/
theorem create_review_answer_error_no_write_witness :
    ReviewService.create_review_answer "u1" ⟨"답"⟩ "c1" "r2" sampleState
      = (.error (NotFoundException .ROW_ALREADY_EXIST "이미 작성된 답변이 존재합니다."), sampleState) ∧
    (ReviewService.create_review_answer "u1" ⟨"답"⟩ "c1" "r2" sampleState).2.answers
      = sampleState.answers := by
  constructor
  · rfl
  · exact create_review_answer_error_no_write "u1" ⟨"답"⟩ "c1" "r2" sampleState
      (NotFoundException .ROW_ALREADY_EXIST "이미 작성된 답변이 존재합니다.")
      (ReviewService.create_review_answer "u1" ⟨"답"⟩ "c1" "r2" sampleState).2 rfl

/-- C7: every `ReviewService` operation preserves the invariant that one
review has at most one answer: from a state where each review has at most
one stored answer, no operation produces a state where some review has
two.  `create_review_answer` refuses to insert when an answer already
exists and no other operation inserts answer rows. -/
theorem review_service_preserves_at_most_one_answer (s : DBState)
    (hinv : atMostOneAnswer s) (subj cid rid : String) (dto : ReviewAnswerRequestDto)
    (startDate endDate : Int) (tag : Option String) (is_answered : Option Bool) :
    atMostOneAnswer
      (ReviewService.find_reviews_by_center subj cid startDate endDate tag is_answered s).2 ∧
    atMostOneAnswer (ReviewService.create_review_answer subj dto cid rid s).2 ∧
    atMostOneAnswer (ReviewService.update_review_answer subj dto cid rid s).2 ∧
    atMostOneAnswer (ReviewService.delete_review_answer subj cid rid s).2 ∧
    atMostOneAnswer (ReviewService.find_reviews_summary_by_center subj cid s).2 := by
  refine ⟨?_, ?_, ?_, ?_, ?_⟩
  · rw [find_reviews_state]
    exact hinv
  · rcases create_state_cases subj dto cid rid s with h | ⟨r, hfind, h⟩
    · rw [h]; exact hinv
    · rw [h]
      intro rid2
      simp only [List.countP_append, List.countP_cons, List.countP_nil]
      by_cases hq : r.id = rid2
      · subst hq
        have hzero : s.answers.countP (fun a => a.reviewId == r.id) = 0 := by
          rw [List.countP_eq_zero]
          intro a hma
          have := List.find?_eq_none.mp hfind a hma
          simpa using this
        simp [hzero]
      · have hne : ((⟨dto.answer_content, r.id⟩ : ReviewAnswer).reviewId == rid2) = false := by
          simp [hq]
        simp only [hne, Bool.false_eq_true, if_false]
        have := hinv rid2
        omega
  · rcases update_state_cases subj dto cid rid s with h | ⟨a, h⟩
    · rw [h]; exact hinv
    · rw [h]
      intro rid2
      unfold ReviewAnswerRepository.updateContent
      rw [countP_map_preserve]
      · exact hinv rid2
      · intro x
        by_cases hx : x == a <;> simp [hx]
  · rcases delete_state_cases subj cid rid s with h | ⟨a, h⟩
    · rw [h]; exact hinv
    · rw [h]
      intro rid2
      unfold ReviewAnswerRepository.delete
      exact le_trans ((List.erase_sublist a s.answers).countP_le _) (hinv rid2)
  · rw [summary_state]
    exact hinv

/-- Witness for C7: the invariant holds on the sample state and is kept by
a concrete answer creation. -/
theorem review_service_preserves_at_most_one_answer_witness :
    atMostOneAnswer sampleState ∧
    atMostOneAnswer (ReviewService.create_review_answer "u1" ⟨"고마워요"⟩ "c1" "r1" sampleState).2 := by
  have hinv : atMostOneAnswer sampleState := by
    intro rid
    simp only [sampleState, List.countP_cons, List.countP_nil]
    split <;> omega
  exact ⟨hinv,
    (review_service_preserves_at_most_one_answer sampleState hinv "u1" "c1" "r1" ⟨"고마워요"⟩
      0 0 none none).2.1⟩

/-- C8: once the center is found and owned by the requester,
`find_reviews_by_center` fails with the bad-request date-range error
exactly when `(end - start).days > 365` or `(end - start).days < 0`, and
otherwise proceeds to the review query; the range check runs only after
the existence and ownership checks, so a non-owner gets the unauthorized
error even with an invalid range. -/
theorem find_reviews_date_range_spec (subj cid : String) (startDate endDate : Int)
    (tag : Option String) (is_answered : Option Bool) (s : DBState) (c : Center)
    (hc : CenterRepository.find_by_id s cid = some c) :
    (c.is_owner subj = true →
      ((endDate - startDate > 365 ∨ endDate - startDate < 0) →
        ReviewService.find_reviews_by_center subj cid startDate endDate tag is_answered s
          = (.error (BadRequestException .WRONG_DATE_RANGE "잘못된 날짜 범위입니다."), s)) ∧
      (¬(endDate - startDate > 365 ∨ endDate - startDate < 0) →
        ReviewService.find_reviews_by_center subj cid startDate endDate tag is_answered s
          = (.ok (ReviewRepository.find_reviews_by_center s cid startDate endDate tag
              is_answered), s)) ∧
      (∀ e s2,
        ReviewService.find_reviews_by_center subj cid startDate endDate tag is_answered s
          = (.error e, s2) → e.kind = ExceptionKind.badRequest →
        (endDate - startDate > 365 ∨ endDate - startDate < 0))) ∧
    (c.is_owner subj = false →
      ReviewService.find_reviews_by_center subj cid startDate endDate tag is_answered s
        = (.error (UnauthorizedException .NOT_ACCESSIBLE "암장 관리자가 아닙니다."), s)) := by
  constructor
  · intro ho
    refine ⟨?_, ?_, ?_⟩
    · intro hd
      simp only [ReviewService.find_reviews_by_center, hc, ho, Bool.not_true,
        Bool.false_eq_true, if_false]
      rw [if_pos hd]
    · intro hd
      simp only [ReviewService.find_reviews_by_center, hc, ho, Bool.not_true,
        Bool.false_eq_true, if_false]
      rw [if_neg hd]
    · intro e s2 h hk
      by_cases hd : endDate - startDate > 365 ∨ endDate - startDate < 0
      · exact hd
      · simp only [ReviewService.find_reviews_by_center, hc, ho, Bool.not_true,
          Bool.false_eq_true, if_false] at h
        rw [if_neg hd] at h
        simp at h
  · intro ho
    simp [ReviewService.find_reviews_by_center, hc, ho]

/-- Witness for C8: an owner with a 400-day range gets the bad-request
error, an owner with a 100-day range gets the listing, and a non-owner
with a 400-day range gets the unauthorized error. -/
theorem find_reviews_date_range_spec_witness :
    CenterRepository.find_by_id sampleState "c1" = some centerA ∧
    centerA.is_owner "u1" = true ∧
    ReviewService.find_reviews_by_center "u1" "c1" 0 400 none none sampleState
      = (.error (BadRequestException .WRONG_DATE_RANGE "잘못된 날짜 범위입니다."), sampleState) ∧
    ReviewService.find_reviews_by_center "u1" "c1" 0 100 none none sampleState
      = (.ok [reviewA, reviewB], sampleState) ∧
    ReviewService.find_reviews_by_center "u2" "c1" 0 400 none none sampleState
      = (.error (UnauthorizedException .NOT_ACCESSIBLE "암장 관리자가 아닙니다."), sampleState) := by
  refine ⟨rfl, rfl, ?_, ?_, ?_⟩
  · exact ((find_reviews_date_range_spec "u1" "c1" 0 400 none none sampleState centerA
      rfl).1 rfl).1 (by omega)
  · have h := ((find_reviews_date_range_spec "u1" "c1" 0 100 none none sampleState centerA
      rfl).1 rfl).2.1 (by omega)
    rw [h]
    rfl
  · exact (find_reviews_date_range_spec "u2" "c1" 0 400 none none sampleState centerA
      rfl).2 rfl

/-- C4: every error raised by a `ReviewService` operation is one of the
three flat kinds (not-found, unauthorized, bad-request), the state is
unchanged when it is raised (no repository write happens before the
raise), and it is raised at the first violated precondition of the
operation's guard sequence — each characterization records that all
earlier checks passed. -/
theorem review_service_error_taxonomy (s : DBState) (subj cid rid : String)
    (dto : ReviewAnswerRequestDto) (startDate endDate : Int) (tag : Option String)
    (is_answered : Option Bool) :
    (∀ e s2,
      ReviewService.find_reviews_by_center subj cid startDate endDate tag is_answered s
        = (.error e, s2) →
      threeKinds e ∧ s2 = s ∧
      ((CenterRepository.find_by_id s cid = none ∧
          e = NotFoundException .DATA_DOES_NOT_EXIST "해당 암장이 존재하지 않습니다.") ∨
       (∃ c, CenterRepository.find_by_id s cid = some c ∧ c.is_owner subj = false ∧
          e = UnauthorizedException .NOT_ACCESSIBLE "암장 관리자가 아닙니다.") ∨
       (∃ c, CenterRepository.find_by_id s cid = some c ∧ c.is_owner subj = true ∧
          (endDate - startDate > 365 ∨ endDate - startDate < 0) ∧
          e = BadRequestException .WRONG_DATE_RANGE "잘못된 날짜 범위입니다."))) ∧
    (∀ e s2,
      ReviewService.create_review_answer subj dto cid rid s = (.error e, s2) →
      threeKinds e ∧ s2 = s ∧
      ((CenterRepository.find_by_id s cid = none ∧
          e = NotFoundException .DATA_DOES_NOT_EXIST "해당 암장이 존재하지 않습니다.") ∨
       (∃ c, CenterRepository.find_by_id s cid = some c ∧ c.is_owner subj = false ∧
          e = UnauthorizedException .NOT_ACCESSIBLE "암장 관리자가 아닙니다.") ∨
       (∃ c, CenterRepository.find_by_id s cid = some c ∧ c.is_owner subj = true ∧
          ReviewRepository.find_by_id_and_center_id s rid c.id = none ∧
          e = NotFoundException .DATA_DOES_NOT_EXIST "해당 리뷰가 암장에 존재하지 않습니다.") ∨
       (∃ c r, CenterRepository.find_by_id s cid = some c ∧ c.is_owner subj = true ∧
          ReviewRepository.find_by_id_and_center_id s rid c.id = some r ∧
          (∃ a, ReviewAnswerRepository.find_by_review_id s r.id = some a) ∧
          e = NotFoundException .ROW_ALREADY_EXIST "이미 작성된 답변이 존재합니다."))) ∧
    (∀ e s2,
      ReviewService.update_review_answer subj dto cid rid s = (.error e, s2) →
      threeKinds e ∧ s2 = s ∧
      ((CenterRepository.find_by_id s cid = none ∧
          e = NotFoundException .DATA_DOES_NOT_EXIST "해당 암장이 존재하지 않습니다.") ∨
       (∃ c, CenterRepository.find_by_id s cid = some c ∧ c.is_owner subj = false ∧
          e = UnauthorizedException .NOT_ACCESSIBLE "암장 관리자가 아닙니다.") ∨
       (∃ c, CenterRepository.find_by_id s cid = some c ∧ c.is_owner subj = true ∧
          ReviewRepository.find_by_id_and_center_id s rid c.id = none ∧
          e = NotFoundException .DATA_DOES_NOT_EXIST "암장에 해당 리뷰가 존재하지 않습니다.") ∨
       (∃ c r, CenterRepository.find_by_id s cid = some c ∧ c.is_owner subj = true ∧
          ReviewRepository.find_by_id_and_center_id s rid c.id = some r ∧
          ReviewAnswerRepository.find_by_review_id s r.id = none ∧
          e = NotFoundException .DATA_DOES_NOT_EXIST "해당 리뷰에 답변이 존재하지 않습니다."))) ∧
    (∀ e s2,
      ReviewService.delete_review_answer subj cid rid s = (.error e, s2) →
      threeKinds e ∧ s2 = s ∧
      ((CenterRepository.find_by_id s cid = none ∧
          e = NotFoundException .DATA_DOES_NOT_EXIST "해당 암장이 존재하지 않습니다.") ∨
       (∃ c, CenterRepository.find_by_id s cid = some c ∧ c.is_owner subj = false ∧
          e = UnauthorizedException .NOT_ACCESSIBLE "암장 관리자가 아닙니다.") ∨
       (∃ c, CenterRepository.find_by_id s cid = some c ∧ c.is_owner subj = true ∧
          ReviewRepository.find_by_id_and_center_id s rid c.id = none ∧
          e = NotFoundException .DATA_DOES_NOT_EXIST "암장에 해당 리뷰가 존재하지 않습니다.") ∨
       (∃ c r, CenterRepository.find_by_id s cid = some c ∧ c.is_owner subj = true ∧
          ReviewRepository.find_by_id_and_center_id s rid c.id = some r ∧
          ReviewAnswerRepository.find_by_review_id s r.id = none ∧
          e = NotFoundException .DATA_DOES_NOT_EXIST "해당 리뷰에 답변이 존재하지 않습니다."))) ∧
    (∀ e s2,
      ReviewService.find_reviews_summary_by_center subj cid s = (.error e, s2) →
      threeKinds e ∧ s2 = s ∧
      ((CenterRepository.find_by_id s cid = none ∧
          e = NotFoundException .DATA_DOES_NOT_EXIST "해당 암장이 존재하지 않습니다.") ∨
       (∃ c, CenterRepository.find_by_id s cid = some c ∧ c.is_owner subj = false ∧
          e = UnauthorizedException .NOT_ACCESSIBLE "암장 관리자가 아닙니다."))) := by
  refine ⟨?_, ?_, ?_, ?_, ?_⟩
  · unfold ReviewService.find_reviews_by_center
    cases hc : CenterRepository.find_by_id s cid with
    | none =>
      intro e s2 h
      simp at h
      obtain ⟨he, hs⟩ := h
      subst he; subst hs
      exact ⟨Or.inl rfl, rfl, Or.inl ⟨rfl, rfl⟩⟩
    | some c =>
      cases ho : c.is_owner subj with
      | false =>
        intro e s2 h
        simp [ho] at h
        obtain ⟨he, hs⟩ := h
        subst he; subst hs
        exact ⟨Or.inr (Or.inl rfl), rfl, Or.inr (Or.inl ⟨c, rfl, ho, rfl⟩)⟩
      | true =>
        intro e s2 h
        simp only [ho, Bool.not_true, Bool.false_eq_true, if_false] at h
        by_cases hd : endDate - startDate > 365 ∨ endDate - startDate < 0
        · rw [if_pos hd] at h
          simp at h
          obtain ⟨he, hs⟩ := h
          subst he; subst hs
          exact ⟨Or.inr (Or.inr rfl), rfl, Or.inr (Or.inr ⟨c, rfl, ho, hd, rfl⟩)⟩
        · rw [if_neg hd] at h
          simp at h
  · unfold ReviewService.create_review_answer
    cases hc : CenterRepository.find_by_id s cid with
    | none =>
      intro e s2 h
      simp at h
      obtain ⟨he, hs⟩ := h
      subst he; subst hs
      exact ⟨Or.inl rfl, rfl, Or.inl ⟨rfl, rfl⟩⟩
    | some c =>
      cases ho : c.is_owner subj with
      | false =>
        intro e s2 h
        simp [ho] at h
        obtain ⟨he, hs⟩ := h
        subst he; subst hs
        exact ⟨Or.inr (Or.inl rfl), rfl, Or.inr (Or.inl ⟨c, rfl, ho, rfl⟩)⟩
      | true =>
        cases hr : ReviewRepository.find_by_id_and_center_id s rid c.id with
        | none =>
          intro e s2 h
          simp [ho, hr] at h
          obtain ⟨he, hs⟩ := h
          subst he; subst hs
          exact ⟨Or.inl rfl, rfl, Or.inr (Or.inr (Or.inl ⟨c, rfl, ho, hr, rfl⟩))⟩
        | some r =>
          cases ha : ReviewAnswerRepository.find_by_review_id s r.id with
          | some a =>
            intro e s2 h
            simp [ho, hr, ha] at h
            obtain ⟨he, hs⟩ := h
            subst he; subst hs
            exact ⟨Or.inl rfl, rfl,
              Or.inr (Or.inr (Or.inr ⟨c, r, rfl, ho, hr, ⟨a, ha⟩, rfl⟩))⟩
          | none =>
            intro e s2 h
            simp [ho, hr, ha, ReviewAnswerRepository.save] at h
  · unfold ReviewService.update_review_answer
    cases hc : CenterRepository.find_by_id s cid with
    | none =>
      intro e s2 h
      simp at h
      obtain ⟨he, hs⟩ := h
      subst he; subst hs
      exact ⟨Or.inl rfl, rfl, Or.inl ⟨rfl, rfl⟩⟩
    | some c =>
      cases ho : c.is_owner subj with
      | false =>
        intro e s2 h
        simp [ho] at h
        obtain ⟨he, hs⟩ := h
        subst he; subst hs
        exact ⟨Or.inr (Or.inl rfl), rfl, Or.inr (Or.inl ⟨c, rfl, ho, rfl⟩)⟩
      | true =>
        cases hr : ReviewRepository.find_by_id_and_center_id s rid c.id with
        | none =>
          intro e s2 h
          simp [ho, hr] at h
          obtain ⟨he, hs⟩ := h
          subst he; subst hs
          exact ⟨Or.inl rfl, rfl, Or.inr (Or.inr (Or.inl ⟨c, rfl, ho, hr, rfl⟩))⟩
        | some r =>
          cases ha : ReviewAnswerRepository.find_by_review_id s r.id with
          | none =>
            intro e s2 h
            simp [ho, hr, ha] at h
            obtain ⟨he, hs⟩ := h
            subst he; subst hs
            exact ⟨Or.inl rfl, rfl,
              Or.inr (Or.inr (Or.inr ⟨c, r, rfl, ho, hr, ha, rfl⟩))⟩
          | some a =>
            intro e s2 h
            simp [ho, hr, ha] at h
  · unfold ReviewService.delete_review_answer
    cases hc : CenterRepository.find_by_id s cid with
    | none =>
      intro e s2 h
      simp at h
      obtain ⟨he, hs⟩ := h
      subst he; subst hs
      exact ⟨Or.inl rfl, rfl, Or.inl ⟨rfl, rfl⟩⟩
    | some c =>
      cases ho : c.is_owner subj with
      | false =>
        intro e s2 h
        simp [ho] at h
        obtain ⟨he, hs⟩ := h
        subst he; subst hs
        exact ⟨Or.inr (Or.inl rfl), rfl, Or.inr (Or.inl ⟨c, rfl, ho, rfl⟩)⟩
      | true =>
        cases hr : ReviewRepository.find_by_id_and_center_id s rid c.id with
        | none =>
          intro e s2 h
          simp [ho, hr] at h
          obtain ⟨he, hs⟩ := h
          subst he; subst hs
          exact ⟨Or.inl rfl, rfl, Or.inr (Or.inr (Or.inl ⟨c, rfl, ho, hr, rfl⟩))⟩
        | some r =>
          cases ha : ReviewAnswerRepository.find_by_review_id s r.id with
          | none =>
            intro e s2 h
            simp [ho, hr, ha] at h
            obtain ⟨he, hs⟩ := h
            subst he; subst hs
            exact ⟨Or.inl rfl, rfl,
              Or.inr (Or.inr (Or.inr ⟨c, r, rfl, ho, hr, ha, rfl⟩))⟩
          | some a =>
            intro e s2 h
            simp [ho, hr, ha] at h
  · unfold ReviewService.find_reviews_summary_by_center
    cases hc : CenterRepository.find_by_id s cid with
    | none =>
      intro e s2 h
      simp at h
      obtain ⟨he, hs⟩ := h
      subst he; subst hs
      exact ⟨Or.inl rfl, rfl, Or.inl ⟨rfl, rfl⟩⟩
    | some c =>
      cases ho : c.is_owner subj with
      | false =>
        intro e s2 h
        simp [ho] at h
        obtain ⟨he, hs⟩ := h
        subst he; subst hs
        exact ⟨Or.inr (Or.inl rfl), rfl, Or.inr ⟨c, rfl, ho, rfl⟩⟩
      | true =>
        intro e s2 h
        simp [ho] at h

/-- Witness for C4: the bad-request error of a 400-day listing by the
owner satisfies the taxonomy. -/
theorem review_service_error_taxonomy_witness :
    threeKinds (BadRequestException .WRONG_DATE_RANGE "잘못된 날짜 범위입니다.") ∧
    sampleState = sampleState ∧
    ((CenterRepository.find_by_id sampleState "c1" = none ∧
        BadRequestException .WRONG_DATE_RANGE "잘못된 날짜 범위입니다."
          = NotFoundException .DATA_DOES_NOT_EXIST "해당 암장이 존재하지 않습니다.") ∨
     (∃ c, CenterRepository.find_by_id sampleState "c1" = some c ∧
        c.is_owner "u1" = false ∧
        BadRequestException .WRONG_DATE_RANGE "잘못된 날짜 범위입니다."
          = UnauthorizedException .NOT_ACCESSIBLE "암장 관리자가 아닙니다.") ∨
     (∃ c, CenterRepository.find_by_id sampleState "c1" = some c ∧
        c.is_owner "u1" = true ∧
        ((400 : Int) - 0 > 365 ∨ (400 : Int) - 0 < 0) ∧
        BadRequestException .WRONG_DATE_RANGE "잘못된 날짜 범위입니다."
          = BadRequestException .WRONG_DATE_RANGE "잘못된 날짜 범위입니다.")) := by
  exact (review_service_error_taxonomy sampleState "u1" "c1" "r1" ⟨"답"⟩ 0 400
    none none).1 (BadRequestException .WRONG_DATE_RANGE "잘못된 날짜 범위입니다.")
    sampleState rfl

/-- C9: the `youtube_code` validator returns `None` on every accepted
non-null value — the success path has no return statement — so the
validated field is always `None`; a non-null value not starting with `@`
is rejected with an error. -/
theorem validate_youtube_code_spec :
    (∀ (v : String) (c : Char) (cs : List Char), v.toList = c :: cs → c = '@' →
      validate_youtube_code (some v) = .ok none) ∧
    (∀ (v : String) (c : Char) (cs : List Char), v.toList = c :: cs → c ≠ '@' →
      validate_youtube_code (some v) = .error "유튜브 채널 코드는 @로 시작 해주세요.") ∧
    (∀ o r, validate_youtube_code o = .ok r → r = none) := by
  refine ⟨?_, ?_, ?_⟩
  · intro v c cs hv hc
    subst hc
    have hv2 : v.data = '@' :: cs := hv
    simp [validate_youtube_code, hv2]
  · intro v c cs hv hc
    have hv2 : v.data = c :: cs := hv
    simp [validate_youtube_code, hv2, hc]
  · intro o r h
    cases o with
    | none =>
      simp [validate_youtube_code] at h
      exact h.symm
    | some v =>
      cases hv : v.data with
      | nil =>
        simp [validate_youtube_code, hv] at h
      | cons c cs =>
        by_cases hc : c = '@'
        · simp [validate_youtube_code, hv, hc] at h
          exact h.symm
        · simp [validate_youtube_code, hv, hc] at h

/-- Witness for C9: a code starting with `@` validates to `None`, one not
starting with `@` is rejected. -/
theorem validate_youtube_code_spec_witness :
    validate_youtube_code (some "@claon") = .ok none ∧
    validate_youtube_code (some "claon") = .error "유튜브 채널 코드는 @로 시작 해주세요." := by
  constructor
  · exact validate_youtube_code_spec.1 "@claon" '@' "claon".toList rfl rfl
  · exact validate_youtube_code_spec.2.1 "claon" 'c' "laon".toList rfl (by decide)

/-- C5: for a center owned by the requester, the summary reports the
number of answered reviews (non-null answer reference), the number of
unanswered reviews, and, for every tag word occurring across the center's
reviews, the number of its occurrences. -/
theorem find_reviews_summary_spec (subj cid : String) (s : DBState) (c : Center)
    (hc : CenterRepository.find_by_id s cid = some c)
    (ho : c.is_owner subj = true) :
    ReviewService.find_reviews_summary_by_center subj cid s
      = (.ok ⟨c.id,
          ((ReviewRepository.find_all_by_center s c.id).filter
            (fun r => r.answerId.isSome)).length,
          ((ReviewRepository.find_all_by_center s c.id).filter
            (fun r => r.answerId.isNone)).length,
          (counterItems (centerTagWords s c.id)).map
            (fun p => ReviewTagDto.mk p.1 p.2)⟩, s) ∧
    (∀ w : String,
      w ∈ centerTagWords s c.id ↔
      ∃ n, ReviewTagDto.mk w n ∈
        (counterItems (centerTagWords s c.id)).map (fun p => ReviewTagDto.mk p.1 p.2)) ∧
    (∀ p : ReviewTagDto,
      p ∈ (counterItems (centerTagWords s c.id)).map (fun p => ReviewTagDto.mk p.1 p.2) →
      p.count = (centerTagWords s c.id).count p.tag ∧ p.tag ∈ centerTagWords s c.id) := by
  refine ⟨?_, ?_, ?_⟩
  · simp only [ReviewService.find_reviews_summary_by_center, hc, ho, Bool.not_true,
      Bool.false_eq_true, if_false, ReviewSummaryResponseDto.from_entity]
    rw [count_true_answered, count_false_unanswered]
    rfl
  · intro w
    simp only [counterItems, List.mem_map]
    constructor
    · intro hw
      refine ⟨(centerTagWords s c.id).count w,
        ⟨(w, (centerTagWords s c.id).count w), ⟨w, ?_, rfl⟩, rfl⟩⟩
      exact (mem_counterKeys (centerTagWords s c.id) w).mpr hw
    · rintro ⟨n, ⟨p, ⟨k, hk, rfl⟩, he⟩⟩
      cases he
      exact (mem_counterKeys (centerTagWords s c.id) k).mp hk
  · intro p hp
    simp only [counterItems, List.mem_map] at hp
    obtain ⟨q, ⟨k, hk, rfl⟩, rfl⟩ := hp
    exact ⟨rfl, (mem_counterKeys (centerTagWords s c.id) k).mp hk⟩

/-- Witness for C5: the sample center has one answered and one unanswered
review and tag tallies 좋아요 ↦ 2, 친절해요 ↦ 1. -/
theorem find_reviews_summary_spec_witness :
    CenterRepository.find_by_id sampleState "c1" = some centerA ∧
    centerA.is_owner "u1" = true ∧
    ReviewService.find_reviews_summary_by_center "u1" "c1" sampleState
      = (.ok ⟨"c1", 1, 1, [⟨"좋아요", 2⟩, ⟨"친절해요", 1⟩]⟩, sampleState) := by
  refine ⟨rfl, rfl, ?_⟩
  have h := (find_reviews_summary_spec "u1" "c1" sampleState centerA rfl rfl).1
  rw [h]
  rfl

/-- Acceptance of an operating-time DTO is exactly the day-of-week
invariant and the (Python-regex-semantics) time pattern on both times. -/
theorem opTime_validate_ok_iff (dto : CenterOperatingTimeDto) :
    CenterOperatingTimeDto.validate dto = .ok dto ↔
      (dto.day_of_week ∈ enumeratedDays ∧ timeAccepted dto.start_time ∧
       timeAccepted dto.end_time) := by
  unfold CenterOperatingTimeDto.validate CenterOperatingTimeDto.validate_day_of_week
    CenterOperatingTimeDto.validate_start_time CenterOperatingTimeDto.validate_end_time
  by_cases hd : dto.day_of_week ∈ enumeratedDays <;>
    cases hs : matchesTimePattern dto.start_time <;>
      cases he : matchesTimePattern dto.end_time <;>
        simp [hd, hs, he, ← matchesTimePattern_iff]

/-- Rejection of an operating-time DTO is exactly the violation of the
day-of-week invariant or of the time pattern. -/
theorem opTime_validate_err_iff (dto : CenterOperatingTimeDto) :
    isErr (CenterOperatingTimeDto.validate dto) = true ↔
      ¬(dto.day_of_week ∈ enumeratedDays ∧ timeAccepted dto.start_time ∧
        timeAccepted dto.end_time) := by
  unfold CenterOperatingTimeDto.validate CenterOperatingTimeDto.validate_day_of_week
    CenterOperatingTimeDto.validate_start_time CenterOperatingTimeDto.validate_end_time
  by_cases hd : dto.day_of_week ∈ enumeratedDays <;>
    cases hs : matchesTimePattern dto.start_time <;>
      cases he : matchesTimePattern dto.end_time <;>
        simp [hd, hs, he, ← matchesTimePattern_iff, isErr]

/-- Acceptance of a fee DTO is exactly the name-length bound and the
non-negativity of price and count. -/
theorem fee_validate_ok_iff (dto : CenterFeeDto) :
    CenterFeeDto.validate dto = .ok dto ↔
      (2 ≤ dto.name.length ∧ dto.name.length ≤ 50 ∧ 0 ≤ dto.price ∧ 0 ≤ dto.count) := by
  unfold CenterFeeDto.validate CenterFeeDto.validate_name CenterFeeDto.validate_price
    CenterFeeDto.validate_count
  by_cases h2 : dto.name.length < 2 <;>
    by_cases h50 : dto.name.length > 50 <;>
      by_cases hp : dto.price < 0 <;>
        by_cases hcnt : dto.count < 0 <;>
          simp [h2, h50, hp, hcnt] <;> omega

/-- Rejection of a fee DTO is exactly the violation of one of its
invariants. -/
theorem fee_validate_err_iff (dto : CenterFeeDto) :
    isErr (CenterFeeDto.validate dto) = true ↔
      ¬(2 ≤ dto.name.length ∧ dto.name.length ≤ 50 ∧ 0 ≤ dto.price ∧ 0 ≤ dto.count) := by
  unfold CenterFeeDto.validate CenterFeeDto.validate_name CenterFeeDto.validate_price
    CenterFeeDto.validate_count
  by_cases h2 : dto.name.length < 2 <;>
    by_cases h50 : dto.name.length > 50 <;>
      by_cases hp : dto.price < 0 <;>
        by_cases hcnt : dto.count < 0 <;>
          simp [h2, h50, hp, hcnt, isErr] <;> omega

/-- C6 (amended): a request DTO accepted by validation satisfies the
validation-level invariants as the code actually checks them — an
operating time's `day_of_week` is one of the enumerated day values and its
`start_time` and `end_time` match the time pattern under Python's regex
semantics (`\d` is any Unicode decimal digit and the `$` anchor also
matches before one trailing newline); on five-character all-ASCII inputs
that pattern is exactly the well-formed `HH:MM` time of day (hour 00–23,
minute 00–59); a fee's `price` and `count` are non-negative and its name
length is within bounds; and every input violating one of these checked
invariants is rejected with an error. -/
theorem center_request_validation_spec :
    (∀ dto : CenterOperatingTimeDto,
      (CenterOperatingTimeDto.validate dto = .ok dto ↔
        (dto.day_of_week ∈ enumeratedDays ∧ timeAccepted dto.start_time ∧
         timeAccepted dto.end_time)) ∧
      (isErr (CenterOperatingTimeDto.validate dto) = true ↔
        ¬(dto.day_of_week ∈ enumeratedDays ∧ timeAccepted dto.start_time ∧
          timeAccepted dto.end_time))) ∧
    (∀ v : String, timeWellFormed v ↔
      (timeAccepted v ∧ v.toList.length = 5 ∧
        v.toList.all (fun c => decide (c.toNat ≤ 127)) = true)) ∧
    (∀ dto : CenterFeeDto,
      (CenterFeeDto.validate dto = .ok dto ↔
        (2 ≤ dto.name.length ∧ dto.name.length ≤ 50 ∧ 0 ≤ dto.price ∧ 0 ≤ dto.count)) ∧
      (isErr (CenterFeeDto.validate dto) = true ↔
        ¬(2 ≤ dto.name.length ∧ dto.name.length ≤ 50 ∧ 0 ≤ dto.price ∧
          0 ≤ dto.count))) :=
  ⟨fun dto => ⟨opTime_validate_ok_iff dto, opTime_validate_err_iff dto⟩,
   timeWellFormed_iff_ascii,
   fun dto => ⟨fee_validate_ok_iff dto, fee_validate_err_iff dto⟩⟩

/-- Counterexample to C6 as stated: validation accepts the start time
"09:00\n" (the `$` anchor of the Python regex also matches before a
trailing newline) and the start time "0٥:30" (`\d` matches any Unicode
decimal digit, here ARABIC-INDIC DIGIT FIVE), and neither is a well-formed
`HH:MM` time of day. -/
theorem center_request_validation_counterexample :
    CenterOperatingTimeDto.validate ⟨"월", "09:00\n", "18:00"⟩
      = .ok ⟨"월", "09:00\n", "18:00"⟩ ∧
    ¬ timeWellFormed "09:00\n" ∧
    CenterOperatingTimeDto.validate ⟨"월", "0٥:30", "18:00"⟩
      = .ok ⟨"월", "0٥:30", "18:00"⟩ ∧
    ¬ timeWellFormed "0٥:30" := by
  refine ⟨rfl, ?_, rfl, ?_⟩
  · rintro ⟨h1, h2, m1, m2, hl, -⟩
    have h6 : ("09:00\n".toList).length = 6 := rfl
    rw [hl] at h6
    simp at h6
  · rintro ⟨h1, h2, m1, m2, hl, -, hd2, -, -, -, -⟩
    have hlist : "0٥:30".toList = ['0', '٥', ':', '3', '0'] := rfl
    rw [hlist] at hl
    simp only [List.cons.injEq, and_true] at hl
    obtain ⟨e1, e2, -, e4, e5⟩ := hl
    subst e2
    exact absurd hd2 (by decide)

/-- Witness for C6 (amended): a valid operating time and fee are
accepted, the pattern-level time invariant specializes to `HH:MM` on a
concrete ASCII time, and an out-of-range hour and a negative price are
rejected. -/
theorem center_request_validation_spec_witness :
    CenterOperatingTimeDto.validate ⟨"월", "09:00", "18:00"⟩ = .ok ⟨"월", "09:00", "18:00"⟩ ∧
    isErr (CenterOperatingTimeDto.validate ⟨"월", "25:00", "18:00"⟩) = true ∧
    timeWellFormed "09:00" ∧
    CenterFeeDto.validate ⟨"일일권", 10000, 1⟩ = .ok ⟨"일일권", 10000, 1⟩ ∧
    isErr (CenterFeeDto.validate ⟨"일일권", -1, 1⟩) = true := by
  have h := center_request_validation_spec
  refine ⟨(h.1 ⟨"월", "09:00", "18:00"⟩).1.mpr ?_,
    (h.1 ⟨"월", "25:00", "18:00"⟩).2.mpr ?_,
    (h.2.1 "09:00").mpr ?_,
    (h.2.2 ⟨"일일권", 10000, 1⟩).1.mpr ?_,
    (h.2.2 ⟨"일일권", -1, 1⟩).2.mpr ?_⟩
  · exact ⟨by decide,
      ⟨'0', '9', '0', '0', [], rfl, Or.inl rfl, Or.inl ⟨Or.inl rfl, rfl⟩,
        Or.inr ⟨by decide, by decide, rfl⟩⟩,
      ⟨'1', '8', '0', '0', [], rfl, Or.inl rfl, Or.inl ⟨Or.inr rfl, rfl⟩,
        Or.inr ⟨by decide, by decide, rfl⟩⟩⟩
  · intro hcon
    have h25 := (matchesTimePattern_iff "25:00").mpr hcon.2.1
    exact absurd h25 (by decide)
  · exact ⟨⟨'0', '9', '0', '0', [], rfl, Or.inl rfl, Or.inl ⟨Or.inl rfl, rfl⟩,
      Or.inr ⟨by decide, by decide, rfl⟩⟩, rfl, rfl⟩
  · refine ⟨by decide, by decide, by decide, by decide⟩
  · intro hcon
    have hbad := hcon.2.2.1
    exact absurd hbad (by decide)

end ClaonAdmin
